import Mathlib

/-
Verification of the prompt-library record store and prompt assembler
(source: src/pb4.py). The element store, history store and the
prompt-assembly function are embedded as executable Lean definitions;
stateful file operations are modelled by explicit table passing: the
table handed to an operation is the loaded CSV, the table in the
returned outcome is the CSV as persisted after the operation.
-/

namespace PromptLib

/-- Element of the store: one row of prompt_elements.csv
(columns title, type, content; see CSV_COLUMNS in pb4.py). -/
structure Element where
  title : String
  type : String
  content : String
deriving DecidableEq, Repr

/-- Canonical elements-table columns, CSV_COLUMNS in pb4.py. -/
def CSV_COLUMNS : List String := ["title", "type", "content"]

/-- Python ASCII whitespace recognised by str.strip(). -/
def isPySpace (c : Char) : Bool :=
  c == ' ' || c == '\t' || c == '\n' || c == '\r' || c == '\x0b' || c == '\x0c'

/-- Model of Python str.strip(): drop whitespace from both ends. -/
def pyStrip (s : String) : String :=
  String.mk (((s.data.dropWhile isPySpace).reverse.dropWhile isPySpace).reverse)

/-- Error kinds of the store operations (spec section 7 taxonomy). -/
inductive StoreError where
  | validationTitle
  | validationContent
  | duplicate
  | schemaError
deriving DecidableEq, Repr

/-- Result of a store operation: the persisted table afterwards, and
the reported error if the operation was aborted. An aborted operation
never saves, so on error the table field equals the input table. -/
structure StoreOutcome where
  table : List Element
  error : Option StoreError
deriving DecidableEq, Repr

/-- Model of the Add Element handler, ElementCreator.render in pb4.py:
reject blank trimmed title or content; reject when a row with the RAW
input title and the input type exists (the check at line 176 compares
the untrimmed title); otherwise append a row with trimmed title and
content and persist. -/
def addElement (df : List Element) (title ty content : String) : StoreOutcome :=
  if pyStrip title = "" then ⟨df, some .validationTitle⟩
  else if pyStrip content = "" then ⟨df, some .validationContent⟩
  else if df.any (fun e => e.title == title && e.type == ty) then ⟨df, some .duplicate⟩
  else ⟨df ++ [⟨pyStrip title, ty, pyStrip content⟩], none⟩

/-- Model of the Update handler, ElementEditor._render_element in
pb4.py: reject blank trimmed title or content; otherwise overwrite the
row at the given stable position with trimmed values and persist. No
duplicate check is performed. -/
def updateElement (df : List Element) (pos : Nat) (title ty content : String) : StoreOutcome :=
  if pyStrip title = "" then ⟨df, some .validationTitle⟩
  else if pyStrip content = "" then ⟨df, some .validationContent⟩
  else ⟨df.set pos ⟨pyStrip title, ty, pyStrip content⟩, none⟩

/-- An uploaded table for bulk import: column names plus rows whose
cells are positionally aligned with the column list. -/
structure RawTable where
  cols : List String
  rows : List (List String)
deriving DecidableEq, Repr

/-- Cell of a row under a named column (empty when the column is
absent); models column access on the uploaded data frame. -/
def cellValue (cols : List String) (row : List String) (c : String) : String :=
  match cols.findIdx? (· == c) with
  | some i => row.getD i ""
  | none => ""

/-- Model of the bulk-import branch, SidebarTools.render in pb4.py:
if every canonical column occurs among the uploaded columns, persist
the projection of the rows onto the canonical columns, otherwise
report a schema error and leave the store untouched. -/
def replace_all (current : List Element) (up : RawTable) : StoreOutcome :=
  if CSV_COLUMNS.all (fun c => up.cols.contains c) then
    ⟨up.rows.map (fun r =>
      ⟨cellValue up.cols r "title", cellValue up.cols r "type", cellValue up.cols r "content"⟩),
     none⟩
  else ⟨current, some .schemaError⟩

/-- Uniqueness invariant of the element collection (spec section 3):
no two rows share both title and type. -/
def uniqueTT (df : List Element) : Prop :=
  (df.map fun e => (e.title, e.type)).Nodup

instance (df : List Element) : Decidable (uniqueTT df) :=
  List.nodupDecidable _

/-- Selection value of one section: a single choice for
role, goal and tone, a list of choices for audience, context
and output (mirrors the selected value in _create_section). -/
inductive Sel where
  | str : String → Sel
  | list : List String → Sel
deriving DecidableEq, Repr

/-- Per-section selection data handed to the assembler: the selected
value plus the custom free text (already stripped by _create_section). -/
structure SectionData where
  selected : Sel
  custom : String
deriving DecidableEq, Repr

/-- The six per-section selections, in the insertion order of the
selections dictionary built by PromptBuilder.render. -/
structure Selections where
  role : SectionData
  goal : SectionData
  audience : SectionData
  context : SectionData
  output : SectionData
  tone : SectionData
deriving DecidableEq, Repr

/-- Iteration order of selections.items() in _generate_prompt. -/
def sectionList (s : Selections) : List (String × SectionData) :=
  [("role", s.role), ("goal", s.goal), ("audience", s.audience),
   ("context", s.context), ("output", s.output), ("tone", s.tone)]

/-- Model of Python sep.join(parts). -/
def pyJoin (sep : String) : List String → String
  | [] => ""
  | x :: xs => xs.foldl (fun acc y => acc ++ sep ++ y) x

/-- Skip test of _generate_prompt line 315: a list selection is
skipped when empty or when its value set equals the Skip singleton; a
single selection is skipped when it equals the Skip sentinel. -/
def isSkip : Sel → Bool
  | .str s => s == "Skip"
  | .list l => l.isEmpty || l.all (· == "Skip")

/-- Model of the cell-to-string step of the lookup at pb4.py line 310,
str(match.values[0]), composed with how pd.read_csv loads the
persisted cell: an empty cell is read as NaN (the empty string is in
the default NA list of pandas) and str of NaN is the literal nan; any
other text cell of the snapshots considered here loads verbatim. An
Element here carries the persisted cell text of a schema-complete CSV,
which every write path of the program produces; the transient
in-memory state of the _ensure_csv column repair (a missing column
filled with true empty strings before rewrite) is not a persisted
cell and is outside the claims. -/
def pandasStr (s : String) : String :=
  if s = "" then "nan" else s

/-- Model of get_content_by_title in _generate_prompt: first row of
the snapshot whose title matches, searched across all types, its
content cell stringified exactly as line 310 does (see pandasStr). -/
def get_content_by_title (df : List Element) (t : String) : Option String :=
  (df.find? (fun e => e.title == t)).map fun e => pandasStr e.content

/-- Whether a section key takes the multi-select branch of
_generate_prompt (line 323). -/
def isMultiKey (sec : String) : Bool :=
  sec == "audience" || sec == "context" || sec == "output"

/-- Model of Python str.title() for the single-word section keys used
here: first character uppercased, the rest lowercased. -/
def pyTitleWord (s : String) : String :=
  match s.data with
  | [] => ""
  | c :: cs => String.mk (c.toUpper :: cs.map Char.toLower)

/-- Items collected by the multi-select loop of _generate_prompt
(lines 324-330): per chosen title, skip the sentinels, look the title
up, and keep the content only when the lookup hits and is non-empty
(the Python truthiness test if c). -/
def collectParts (df : List Element) (l : List String) : List String :=
  l.filterMap fun item =>
    if item == "Skip" || item == "Write your own" then none
    else (get_content_by_title df item).bind fun c => if c = "" then none else some c

/-- One iteration of the section loop of _generate_prompt: the block
contributed by section sec (none when nothing is emitted). -/
def sectionBlock (df : List Element) (sec : String) (d : SectionData) : Option String :=
  if isSkip d.selected then none
  else
    let st0 := pyTitleWord sec
    let sectionTitle := if sec == "audience" then "Target Audience" else st0
    if isMultiKey sec then
      let parts :=
        (match d.selected with
         | .list l => collectParts df l
         | .str _ => []) ++ (if d.custom ≠ "" then [d.custom] else [])
      let content := pyJoin "\n" (parts.filter (fun p => p ≠ ""))
      if content = "" then none else some (sectionTitle ++ ":\n" ++ content)
    else
      let content : Option String :=
        match d.selected with
        | .str s => if s == "Write your own" then some d.custom else get_content_by_title df s
        | .list _ => get_content_by_title df ""
      content.bind fun c => if c = "" then none else some (sectionTitle ++ ": " ++ c)

/-- Model of PromptBuilder._generate_prompt: join the non-empty
section blocks with a double newline, then append the fixed
clarifying-question instruction when recursive feedback is requested. -/
def generate_prompt (df : List Element) (sels : Selections) (recursive_feedback : Bool) : String :=
  let prompt_parts := (sectionList sels).filterMap (fun kd => sectionBlock df kd.1 kd.2)
  let prompt := pyJoin "\n\n" prompt_parts
  if recursive_feedback then
    prompt ++ "\n\nBefore you provide the response, ask any clarifying questions that would improve the output. If you already have enough info, proceed."
  else prompt

/-- The fixed clarifying-question instruction without its separating
blank line. -/
def clarifyInstruction : String :=
  "Before you provide the response, ask any clarifying questions that would improve the output. If you already have enough info, proceed."

end PromptLib

namespace PromptLib

/-- Elements of the worked example in the spec (section 8). -/
def exampleElements : List Element :=
  [⟨"Helpful Assistant", "role", "You are a helpful assistant."⟩,
   ⟨"Concise", "tone", "Be concise."⟩]

/-- Selections of the worked example: role and tone chosen, all other
sections skipped, no custom text. -/
def exampleSelections : Selections :=
  { role := ⟨.str "Helpful Assistant", ""⟩
    goal := ⟨.str "Skip", ""⟩
    audience := ⟨.list ["Skip"], ""⟩
    context := ⟨.list ["Skip"], ""⟩
    output := ⟨.list ["Skip"], ""⟩
    tone := ⟨.str "Concise", ""⟩ }

/-- Claim C1: for the two-element snapshot with role Helpful Assistant
and tone Concise, selecting those two and skipping every other section
with recursive feedback off assembles exactly the string
Role: You are a helpful assistant.(blank line)Tone: Be concise. —
single-choice sections emit header and content on one line and the
non-empty blocks are joined by a double newline in section order. -/
theorem single_choice_example_assembly :
    generate_prompt exampleElements exampleSelections false =
      "Role: You are a helpful assistant.\n\nTone: Be concise." := by
  rfl

/-- Claim C3, counterexample: the code does not preserve the
uniqueness invariant. A successful update can overwrite a row with a
title and type pair already used by another row (no duplicate check on
update), and a successful add whose raw title differs from its trimmed
form by whitespace can append a row whose trimmed title and type
collide with an existing row (the duplicate check compares the raw
title, the inserted row carries the trimmed title). -/
theorem unique_invariant_not_preserved :
    uniqueTT [⟨"A", "role", "c1"⟩, ⟨"B", "role", "c2"⟩] ∧
    (updateElement [⟨"A", "role", "c1"⟩, ⟨"B", "role", "c2"⟩] 1 "A" "role" "c2").error = none ∧
    ¬ uniqueTT (updateElement [⟨"A", "role", "c1"⟩, ⟨"B", "role", "c2"⟩] 1 "A" "role" "c2").table ∧
    uniqueTT [⟨"A", "role", "c"⟩] ∧
    (addElement [⟨"A", "role", "c"⟩] " A" "role" "x").error = none ∧
    ¬ uniqueTT (addElement [⟨"A", "role", "c"⟩] " A" "role" "x").table := by
  decide

/-- Claim C3, amended: on a table satisfying the uniqueness invariant,
a successful add whose input title equals its trimmed form yields a
table that still satisfies the invariant (update performs no duplicate
check and is not covered, nor is an add whose title carries
surrounding whitespace). -/
theorem add_trimmed_preserves_unique (df : List Element) (title ty content : String)
    (hu : uniqueTT df) (ht : pyStrip title = title)
    (hok : (addElement df title ty content).error = none) :
    uniqueTT (addElement df title ty content).table := by
  by_cases h1 : pyStrip title = ""
  · simp [addElement, h1] at hok
  · by_cases h2 : pyStrip content = ""
    · simp [addElement, h1, h2] at hok
    · by_cases h3 : df.any (fun e => e.title == title && e.type == ty) = true
      · simp [addElement, h1, h2, h3] at hok
      · have htab : (addElement df title ty content).table =
            df ++ [⟨title, ty, pyStrip content⟩] := by
          simp [addElement, h1, h2, h3]
          rw [ht]
        rw [htab]
        have hmem : ((title, ty) : String × String) ∉ df.map fun e => (e.title, e.type) := by
          intro hmem
          obtain ⟨e, he, hkey⟩ := List.mem_map.mp hmem
          have hkey2 : e.title = title ∧ e.type = ty := by
            constructor
            · exact congrArg Prod.fst hkey
            · exact congrArg Prod.snd hkey
          exact h3 (List.any_eq_true.mpr ⟨e, he, by simp [hkey2.1, hkey2.2]⟩)
        unfold uniqueTT at hu ⊢
        rw [List.map_append]
        refine List.nodup_append.mpr ⟨hu, by simp, ?_⟩
        intro x hx hx2
        simp only [List.map_cons, List.map_nil, List.mem_singleton] at hx2
        rw [hx2] at hx
        exact hmem hx

/-- Witness for the amended C3 theorem at a concrete input. -/
theorem add_trimmed_preserves_unique_witness :
    uniqueTT ([] : List Element) ∧ pyStrip "A" = "A" ∧
    (addElement [] "A" "role" "b").error = none ∧
    uniqueTT (addElement [] "A" "role" "b").table :=
  ⟨by decide, by decide, by decide,
   add_trimmed_preserves_unique [] "A" "role" "b" (by decide) (by decide) (by decide)⟩

/-- Claim C4, counterexample: an input title differing from an
existing title only by surrounding whitespace is NOT rejected: the
duplicate check compares the raw input title, so the add succeeds and
appends a second row whose trimmed title and type match the existing
row, instead of failing with a duplicate error. -/
theorem whitespace_duplicate_not_rejected :
    pyStrip " A " = "A" ∧
    ([(⟨"A", "role", "c"⟩ : Element)].any
      (fun e => e.title == pyStrip " A " && e.type == "role")) = true ∧
    (addElement [⟨"A", "role", "c"⟩] " A " "role" "x").error = none ∧
    (addElement [⟨"A", "role", "c"⟩] " A " "role" "x").table =
      [⟨"A", "role", "c"⟩, ⟨"A", "role", "x"⟩] := by
  decide

/-- Claim C4, amended: for non-blank trimmed title and content, add
fails with the duplicate error exactly when the table already contains
an element whose title equals the RAW (untrimmed) input title and
whose type equals the input type, and on that failure the persisted
table is left unchanged. -/
theorem add_duplicate_iff_raw_title_match (df : List Element) (title ty content : String)
    (ht : pyStrip title ≠ "") (hc : pyStrip content ≠ "") :
    ((addElement df title ty content).error = some .duplicate ↔
      ∃ e ∈ df, e.title = title ∧ e.type = ty) ∧
    ((∃ e ∈ df, e.title = title ∧ e.type = ty) →
      (addElement df title ty content).table = df) := by
  by_cases h3 : df.any (fun e => e.title == title && e.type == ty) = true
  · have hex : ∃ e ∈ df, e.title = title ∧ e.type = ty := by
      obtain ⟨e, he, hp⟩ := List.any_eq_true.mp h3
      exact ⟨e, he, by simpa using hp⟩
    constructor
    · simp [addElement, ht, hc, h3, hex]
    · intro _
      simp [addElement, ht, hc, h3]
  · have hnex : ¬ ∃ e ∈ df, e.title = title ∧ e.type = ty := by
      intro hex
      obtain ⟨e, he, h4, h5⟩ := hex
      exact h3 (List.any_eq_true.mpr ⟨e, he, by simp [h4, h5]⟩)
    constructor
    · simp [addElement, ht, hc, h3, hnex]
    · intro hex
      exact absurd hex hnex

/-- Witness for the amended C4 theorem at a concrete input. -/
theorem add_duplicate_iff_raw_title_match_witness :
    pyStrip "A" ≠ "" ∧ pyStrip "x" ≠ "" ∧
    (addElement [⟨"A", "role", "c"⟩] "A" "role" "x").error = some .duplicate ∧
    (addElement [⟨"A", "role", "c"⟩] "A" "role" "x").table = [⟨"A", "role", "c"⟩] :=
  ⟨by decide, by decide,
   (add_duplicate_iff_raw_title_match [⟨"A", "role", "c"⟩] "A" "role" "x"
     (by decide) (by decide)).1.mpr ⟨⟨"A", "role", "c"⟩, by decide, rfl, rfl⟩,
   (add_duplicate_iff_raw_title_match [⟨"A", "role", "c"⟩] "A" "role" "x"
     (by decide) (by decide)).2 ⟨⟨"A", "role", "c"⟩, by decide, rfl, rfl⟩⟩

/-- Claim C5, counterexample: an uploaded table carrying the three
canonical columns plus an extra column is NOT rejected: the schema
check only requires the canonical columns to be present, so the import
succeeds and stores the projection onto the canonical columns. -/
theorem extra_columns_accepted :
    (CSV_COLUMNS.contains "notes") = false ∧
    (replace_all [] ⟨["title", "type", "content", "notes"], [["A", "role", "c", "x"]]⟩).error
      = none ∧
    (replace_all [] ⟨["title", "type", "content", "notes"], [["A", "role", "c", "x"]]⟩).table
      = [⟨"A", "role", "c"⟩] := by
  decide

/-- Claim C5, amended: replace_all fails with the schema error exactly
when at least one canonical column is missing from the uploaded
columns (extra columns are accepted and projected away), and on that
failure the existing store is untouched. -/
theorem replace_all_schema_missing_column (current : List Element) (up : RawTable) :
    ((replace_all current up).error = some .schemaError ↔
      ∃ c ∈ CSV_COLUMNS, up.cols.contains c = false) ∧
    ((replace_all current up).error = some .schemaError →
      (replace_all current up).table = current) := by
  by_cases h : CSV_COLUMNS.all (fun c => up.cols.contains c) = true
  · constructor
    · constructor
      · intro he
        simp only [replace_all] at he
        rw [if_pos h] at he
        simp at he
      · intro hex
        obtain ⟨c, hc, hf⟩ := hex
        have hct := List.all_eq_true.mp h c hc
        rw [hct] at hf
        simp at hf
    · intro he
      simp only [replace_all] at he
      rw [if_pos h] at he
      simp at he
  · have hex : ∃ c ∈ CSV_COLUMNS, up.cols.contains c = false := by
      by_contra hno
      apply h
      refine List.all_eq_true.mpr ?_
      intro c hc
      by_contra hcf
      rw [Bool.not_eq_true] at hcf
      exact hno ⟨c, hc, hcf⟩
    constructor
    · constructor
      · intro _
        exact hex
      · intro _
        simp only [replace_all]
        rw [if_neg h]
    · intro _
      simp only [replace_all]
      rw [if_neg h]

/-- Witness for the amended C5 theorem at a concrete input. -/
theorem replace_all_schema_missing_column_witness :
    (replace_all [] ⟨["title", "type"], []⟩).error = some .schemaError :=
  (replace_all_schema_missing_column [] ⟨["title", "type"], []⟩).1.mpr
    ⟨"content", by decide, by decide⟩

end PromptLib

namespace PromptLib

/-- Helper: a section whose selection satisfies the skip test emits no
block. -/
theorem sectionBlock_skip (df : List Element) (sec : String) (d : SectionData)
    (h : isSkip d.selected = true) : sectionBlock df sec d = none := by
  simp only [sectionBlock]
  rw [if_pos h]

/-- Helper: filterMap drops an element the function maps to none. -/
theorem filterMap_cons_of_none {α β : Type} (f : α → Option β) (a : α) (l : List α)
    (h : f a = none) : List.filterMap f (a :: l) = List.filterMap f l := by
  rw [List.filterMap_cons, h]

/-- Helper: filterMap keeps an element the function maps to some value. -/
theorem filterMap_cons_of_some {α β : Type} (f : α → Option β) (a : α) (l : List α) (b : β)
    (h : f a = some b) : List.filterMap f (a :: l) = b :: List.filterMap f l := by
  rw [List.filterMap_cons, h]

/-- Helper: stringification never yields the empty string, because the
empty cell itself stringifies to the literal nan. -/
theorem pandasStr_ne_empty (s : String) : pandasStr s ≠ "" := by
  unfold pandasStr
  by_cases h : s = ""
  · rw [if_pos h]
    decide
  · rw [if_neg h]
    exact h

/-- Helper: a successful title lookup never returns the empty string. -/
theorem lookup_ne_empty (df : List Element) (t c : String)
    (h : get_content_by_title df t = some c) : c ≠ "" := by
  simp only [get_content_by_title] at h
  cases hfind : df.find? (fun e => e.title == t) with
  | none => rw [hfind] at h; cases h
  | some e =>
    rw [hfind, Option.map_some'] at h
    injection h with h2
    rw [← h2]
    exact pandasStr_ne_empty _

/-- Claim C7: when every section is skipped (single selections equal
the Skip sentinel, list selections empty or all Skip, no custom text)
and recursive feedback is off, the assembler returns the empty string
rather than an error. -/
theorem all_skipped_empty_output (df : List Element) (sels : Selections)
    (h1 : isSkip sels.role.selected = true) (h2 : isSkip sels.goal.selected = true)
    (h3 : isSkip sels.audience.selected = true) (h4 : isSkip sels.context.selected = true)
    (h5 : isSkip sels.output.selected = true) (h6 : isSkip sels.tone.selected = true)
    (_hc1 : sels.role.custom = "") (_hc2 : sels.goal.custom = "")
    (_hc3 : sels.audience.custom = "") (_hc4 : sels.context.custom = "")
    (_hc5 : sels.output.custom = "") (_hc6 : sels.tone.custom = "") :
    generate_prompt df sels false = "" := by
  have b1 := sectionBlock_skip df "role" sels.role h1
  have b2 := sectionBlock_skip df "goal" sels.goal h2
  have b3 := sectionBlock_skip df "audience" sels.audience h3
  have b4 := sectionBlock_skip df "context" sels.context h4
  have b5 := sectionBlock_skip df "output" sels.output h5
  have b6 := sectionBlock_skip df "tone" sels.tone h6
  simp [generate_prompt, sectionList, b1, b2, b3, b4, b5, b6, pyJoin]

/-- All-skip selections used by witnesses: every single selection is
the Skip sentinel and the multi selections are the empty list or the
Skip singleton, with no custom text. -/
def skipAllSelections : Selections :=
  { role := ⟨.str "Skip", ""⟩
    goal := ⟨.str "Skip", ""⟩
    audience := ⟨.list [], ""⟩
    context := ⟨.list ["Skip"], ""⟩
    output := ⟨.list [], ""⟩
    tone := ⟨.str "Skip", ""⟩ }

/-- Witness for C7 at a concrete input. -/
theorem all_skipped_empty_output_witness :
    generate_prompt [] skipAllSelections false = "" :=
  all_skipped_empty_output [] skipAllSelections
    (by decide) (by decide) (by decide) (by decide) (by decide) (by decide)
    rfl rfl rfl rfl rfl rfl

/-- Claim C9: with recursive feedback on and every section skipped,
the output is the double-newline separator followed by the fixed
clarifying-question instruction — it begins with the separator, not
with the instruction text, even though there is no body to separate. -/
theorem feedback_on_empty_body_leading_separator (df : List Element) (sels : Selections)
    (h1 : isSkip sels.role.selected = true) (h2 : isSkip sels.goal.selected = true)
    (h3 : isSkip sels.audience.selected = true) (h4 : isSkip sels.context.selected = true)
    (h5 : isSkip sels.output.selected = true) (h6 : isSkip sels.tone.selected = true) :
    generate_prompt df sels true = "\n\n" ++ clarifyInstruction := by
  have b1 := sectionBlock_skip df "role" sels.role h1
  have b2 := sectionBlock_skip df "goal" sels.goal h2
  have b3 := sectionBlock_skip df "audience" sels.audience h3
  have b4 := sectionBlock_skip df "context" sels.context h4
  have b5 := sectionBlock_skip df "output" sels.output h5
  have b6 := sectionBlock_skip df "tone" sels.tone h6
  simp [generate_prompt, sectionList, b1, b2, b3, b4, b5, b6, pyJoin, clarifyInstruction]

/-- Witness for C9 at a concrete input. -/
theorem feedback_on_empty_body_leading_separator_witness :
    generate_prompt [] skipAllSelections true = "\n\n" ++ clarifyInstruction :=
  feedback_on_empty_body_leading_separator [] skipAllSelections
    (by decide) (by decide) (by decide) (by decide) (by decide) (by decide)

/-- Claim C8: a chosen title absent from the snapshot is a silent
lookup miss: the lookup returns none, in a multi-choice list the item
contributes nothing (dropping it leaves the collected items
unchanged), and a single-choice section that selects it emits no
block; assembly itself is total and never fails. -/
theorem missing_title_contributes_nothing (df : List Element) (t : String)
    (h : ∀ e ∈ df, e.title ≠ t) :
    get_content_by_title df t = none ∧
    (∀ l1 l2, collectParts df (l1 ++ t :: l2) = collectParts df (l1 ++ l2)) ∧
    (∀ sec d, isMultiKey sec = false → d.selected = Sel.str t →
      t ≠ "Skip" → t ≠ "Write your own" → sectionBlock df sec d = none) := by
  have hnone : get_content_by_title df t = none := by
    simp only [get_content_by_title]
    have hfind : df.find? (fun e => e.title == t) = none := by
      rw [List.find?_eq_none]
      intro e he
      simp [h e he]
    rw [hfind]
    rfl
  refine ⟨hnone, ?_, ?_⟩
  · intro l1 l2
    unfold collectParts
    rw [List.filterMap_append, List.filterMap_append]
    congr 1
    apply filterMap_cons_of_none
    by_cases hsent : (t == "Skip" || t == "Write your own") = true
    · simp [hsent]
    · simp [hsent, hnone]
  · intro sec d hm hsel hts htw
    have hskip : isSkip d.selected = false := by
      rw [hsel]
      simp [isSkip, hts]
    simp [sectionBlock, hskip, hm, hsel, htw, hnone]

/-- Witness for C8 at a concrete input. -/
theorem missing_title_contributes_nothing_witness :
    get_content_by_title [(⟨"A", "role", "X"⟩ : Element)] "Ghost" = none ∧
    collectParts [(⟨"A", "role", "X"⟩ : Element)] (["A"] ++ "Ghost" :: []) =
      collectParts [(⟨"A", "role", "X"⟩ : Element)] (["A"] ++ []) ∧
    sectionBlock [(⟨"A", "role", "X"⟩ : Element)] "role" ⟨Sel.str "Ghost", ""⟩ = none := by
  have h := missing_title_contributes_nothing [⟨"A", "role", "X"⟩] "Ghost" (by decide)
  exact ⟨h.1, h.2.1 ["A"] [],
    h.2.2 "role" ⟨Sel.str "Ghost", ""⟩ (by decide) rfl (by decide) (by decide)⟩

/-- Claim C10, counterexample: in the bulk-replace scenario the claim
itself names, the program does NOT treat an empty stored content like
a lookup miss. Bulk replace persists the row verbatim; on the next
load the empty cell is NaN and the lookup stringifies it to the
truthy literal nan, so the multi-choice loop adds the item nan and a
single-choice section emits the line Role: nan instead of nothing. -/
theorem empty_cell_emits_nan :
    (replace_all [] ⟨["title", "type", "content"], [["Empty", "role", ""]]⟩).table
      = [⟨"Empty", "role", ""⟩] ∧
    get_content_by_title [(⟨"Empty", "role", ""⟩ : Element)] "Empty" = some "nan" ∧
    collectParts [(⟨"Empty", "role", ""⟩ : Element)] ["Empty"] = ["nan"] ∧
    sectionBlock [(⟨"Empty", "role", ""⟩ : Element)] "role" ⟨Sel.str "Empty", ""⟩
      = some "Role: nan" := by
  decide

/-- Claim C10, amended: an element whose persisted content cell is
empty (possible because bulk replace performs no per-row validation),
when its title is chosen and found first by the lookup, does not
contribute nothing: pandas loads the empty cell as NaN, the lookup
stringifies it to the truthy literal nan, a multi-choice section adds
the item nan, and a single-choice section emits its header line with
content nan. -/
theorem empty_content_emits_nan_literal (df : List Element) (t : String) (e : Element)
    (hfind : df.find? (fun x => x.title == t) = some e) (hc : e.content = "")
    (hts : t ≠ "Skip") (htw : t ≠ "Write your own") :
    get_content_by_title df t = some "nan" ∧
    (∀ l1 l2, collectParts df (l1 ++ t :: l2) =
      collectParts df l1 ++ "nan" :: collectParts df l2) ∧
    (∀ sec d, isMultiKey sec = false → d.selected = Sel.str t →
      sectionBlock df sec d =
        some ((if sec == "audience" then "Target Audience" else pyTitleWord sec)
          ++ ": " ++ "nan")) := by
  have hlook : get_content_by_title df t = some "nan" := by
    simp only [get_content_by_title, hfind, Option.map_some']
    rw [hc]
    rfl
  have hsent : ¬((t == "Skip" || t == "Write your own") = true) := by
    simp [hts, htw]
  refine ⟨hlook, ?_, ?_⟩
  · intro l1 l2
    unfold collectParts
    rw [List.filterMap_append]
    congr 1
    have hft : (if (t == "Skip" || t == "Write your own") = true then none
        else (get_content_by_title df t).bind fun c => if c = "" then none else some c)
        = some ("nan" : String) := by
      rw [if_neg hsent, hlook]
      rfl
    exact filterMap_cons_of_some _ _ _ _ hft
  · intro sec d hm hsel
    have hskip : isSkip (Sel.str t) = false := by
      simp [isSkip, hts]
    have hnanne : ("nan" : String) ≠ "" := by decide
    simp [sectionBlock, hskip, hm, hsel, htw, hlook, hnanne]

/-- Witness for the amended C10 theorem at a concrete input. -/
theorem empty_content_emits_nan_literal_witness :
    get_content_by_title [(⟨"Empty", "role", ""⟩ : Element)] "Empty" = some "nan" ∧
    collectParts [(⟨"Empty", "role", ""⟩ : Element)] (["A"] ++ "Empty" :: []) =
      collectParts [(⟨"Empty", "role", ""⟩ : Element)] ["A"] ++ "nan" ::
        collectParts [(⟨"Empty", "role", ""⟩ : Element)] [] ∧
    sectionBlock [(⟨"Empty", "role", ""⟩ : Element)] "role" ⟨Sel.str "Empty", ""⟩ =
      some ((if "role" == "audience" then "Target Audience" else pyTitleWord "role")
        ++ ": " ++ "nan") := by
  have h := empty_content_emits_nan_literal [⟨"Empty", "role", ""⟩] "Empty"
    ⟨"Empty", "role", ""⟩ rfl rfl (by decide) (by decide)
  exact ⟨h.1, h.2.1 ["A"] [], h.2.2 "role" ⟨Sel.str "Empty", ""⟩ (by decide) rfl⟩

/-- Spec-side description of a multi-choice block (spec section 4.3
step 2 and claim C2): look up each chosen title, excluding the
sentinels; collect the found contents in selection order; append the
custom free text as a final item when non-empty; join with a newline;
when the join is non-empty emit the header line followed by it. -/
def multiBlockSpec (df : List Element) (header : String) (chosen : List String)
    (custom : String) : Option String :=
  let found := chosen.filterMap fun t =>
    if t == "Skip" || t == "Write your own" then none else get_content_by_title df t
  let items := found ++ (if custom ≠ "" then [custom] else [])
  let joined := pyJoin "\n" items
  if joined = "" then none else some (header ++ ":\n" ++ joined)

/-- Helper: items collected by the multi-select loop are non-empty
strings by construction. -/
theorem mem_collectParts_ne_empty (df : List Element) (l : List String) (p : String)
    (hp : p ∈ collectParts df l) : p ≠ "" := by
  simp only [collectParts, List.mem_filterMap] at hp
  obtain ⟨x, hx, hfx⟩ := hp
  split at hfx
  · cases hfx
  · cases hlook : get_content_by_title df x with
    | none => rw [hlook] at hfx; cases hfx
    | some c =>
      rw [hlook] at hfx
      simp only [Option.some_bind] at hfx
      split at hfx
      · cases hfx
      · injection hfx with hfx2
        rw [← hfx2]
        assumption

/-- Helper: filtering out empty strings from a list without empty
strings changes nothing. -/
theorem filter_ne_empty_id (xs : List String) (hall : ∀ p ∈ xs, p ≠ "") :
    xs.filter (fun p => p ≠ "") = xs := by
  induction xs with
  | nil => rfl
  | cons a as ih =>
    rw [List.filter_cons]
    have ha : a ≠ "" := hall a (List.mem_cons_self a as)
    rw [if_pos (by simp [ha])]
    rw [ih (fun p hp => hall p (List.mem_cons_of_mem a hp))]

/-- Claim C2: on a snapshot whose rows obey the non-empty-content data
model, every non-skipped multi-choice section produces exactly the
block the spec describes: found contents of the chosen titles in
selection order, then the custom free text when non-empty, joined by a
newline under the header line (Target Audience for audience, the
capitalized key otherwise). -/
theorem multi_section_matches_spec (df : List Element) (sec : String)
    (l : List String) (cust : String)
    (hdf : ∀ e ∈ df, e.content ≠ "")
    (hm : isMultiKey sec = true) (hs : isSkip (Sel.list l) = false) :
    sectionBlock df sec ⟨Sel.list l, cust⟩ =
      multiBlockSpec df (if sec == "audience" then "Target Audience" else pyTitleWord sec)
        l cust := by
  have hcollect : collectParts df l = l.filterMap fun t =>
      if t == "Skip" || t == "Write your own" then none else get_content_by_title df t := by
    unfold collectParts
    congr 1
    funext t
    by_cases hs2 : (t == "Skip" || t == "Write your own") = true
    · simp [hs2]
    · rw [if_neg hs2, if_neg hs2]
      cases hlook : get_content_by_title df t with
      | none => rfl
      | some c =>
        simp only [Option.some_bind]
        rw [if_neg (lookup_ne_empty df t c hlook)]
  have hparts : ∀ p ∈ (collectParts df l ++ if cust ≠ "" then [cust] else []), p ≠ "" := by
    intro p hp
    rcases List.mem_append.mp hp with hp1 | hp2
    · exact mem_collectParts_ne_empty df l p hp1
    · by_cases hcu : cust ≠ ""
      · rw [if_pos hcu] at hp2
        rw [List.mem_singleton] at hp2
        rw [hp2]
        exact hcu
      · rw [if_neg hcu] at hp2
        cases hp2
  have hskipneg : ¬(isSkip (Sel.list l) = true) := by
    rw [hs]
    exact Bool.false_ne_true
  simp only [sectionBlock, multiBlockSpec]
  rw [if_neg hskipneg]
  rw [if_pos hm]
  rw [filter_ne_empty_id _ hparts]
  rw [hcollect]

/-- Witness for C2 at the concrete example of the claim: one audience
element Developers plus custom text yields the described block. -/
theorem multi_section_matches_spec_witness :
    isMultiKey "audience" = true ∧
    isSkip (Sel.list ["Developers"]) = false ∧
    sectionBlock [(⟨"Developers", "audience", "Software developers."⟩ : Element)] "audience"
      ⟨Sel.list ["Developers"], "and hobbyists"⟩ =
      some "Target Audience:\nSoftware developers.\nand hobbyists" :=
  ⟨by decide, by decide,
   (multi_section_matches_spec [⟨"Developers", "audience", "Software developers."⟩]
     "audience" ["Developers"] "and hobbyists" (by decide) (by decide) (by decide)).trans
     (by rfl)⟩

end PromptLib

namespace PromptLib

/-- Saved prompt record: one row of prompt_history.csv. The timestamp
is stored as the character list of the rendered ISO-8601 string. -/
structure PromptRecord where
  name : String
  timestamp : List Char
  prompt : String
deriving DecidableEq, Repr

/-- Wall-clock instant with its UTC offset in minutes, the data
rendered by datetime.now(tz=TZ).isoformat() in _iso_now. -/
structure Stamp where
  year : Nat
  month : Nat
  day : Nat
  hour : Nat
  minute : Nat
  second : Nat
  usec : Nat
  offMin : Int
deriving DecidableEq, Repr

/-- Field ranges of a real calendar timestamp (year bounded as in
Python datetime). -/
def validStamp (t : Stamp) : Prop :=
  t.year < 10000 ∧ 1 ≤ t.month ∧ t.month ≤ 12 ∧ 1 ≤ t.day ∧ t.day ≤ 31 ∧
  t.hour < 24 ∧ t.minute < 60 ∧ t.second < 60 ∧ t.usec < 1000000

instance (t : Stamp) : Decidable (validStamp t) := by
  unfold validStamp
  infer_instance

def digitChar (d : Nat) : Char := Char.ofNat (48 + d)

/-- Fixed-width decimal rendering, most significant digit first. -/
def padNum : Nat → Nat → List Char
  | 0, _ => []
  | k + 1, n => digitChar (n / 10 ^ k) :: padNum k (n % 10 ^ k)

/-- Fractional-second part of isoformat: absent when the microsecond
field is zero, otherwise a dot and six digits. -/
def fracChars (us : Nat) : List Char :=
  if us = 0 then [] else '.' :: padNum 6 us

/-- Offset suffix of isoformat: sign, two-digit hours, colon,
two-digit minutes. -/
def offChars (off : Int) : List Char :=
  (if 0 ≤ off then '+' else '-') :: (padNum 2 (off.natAbs / 60) ++ ':' :: padNum 2 (off.natAbs % 60))

/-- Characters of datetime.isoformat() for a stamp. -/
def isoChars (t : Stamp) : List Char :=
  padNum 4 t.year ++ '-' :: (padNum 2 t.month ++ '-' :: (padNum 2 t.day ++
    'T' :: (padNum 2 t.hour ++ ':' :: (padNum 2 t.minute ++ ':' :: (padNum 2 t.second ++
      (fracChars t.usec ++ offChars t.offMin))))))

/-- Strict lexicographic comparison on code points, the string order
used by the pandas sort in PromptBrowser.render. -/
def lexLt : List Char → List Char → Bool
  | _, [] => false
  | [], _ :: _ => true
  | a :: as, b :: bs =>
    if a.toNat < b.toNat then true
    else if b.toNat < a.toNat then false
    else lexLt as bs

/-- Mixed-radix encoding of the local calendar fields; every base
exceeds the range of its field, so on valid stamps it realizes exactly
the lexicographic order of the field tuple, which for stamps sharing
one UTC offset is chronological order. -/
def chronoVal (t : Stamp) : Nat :=
  (((((t.year * 13 + t.month) * 32 + t.day) * 24 + t.hour) * 60 + t.minute) * 60 + t.second)
    * 1000000 + t.usec

/-- Model of DataManager.save_prompt: append a row stamped with the
current instant (the wall clock is an explicit input, rendered exactly
as _iso_now renders it). -/
def save_prompt (history : List PromptRecord) (name : String) (now : Stamp)
    (text : String) : List PromptRecord :=
  history ++ [⟨name, isoChars now, text⟩]

/-- Insertion step of the descending sort by timestamp string. -/
def insertDesc (r : PromptRecord) : List PromptRecord → List PromptRecord
  | [] => [r]
  | x :: xs => if lexLt x.timestamp r.timestamp then r :: x :: xs else x :: insertDesc r xs

/-- Model of the sort in PromptBrowser.render: records ordered by
timestamp string descending. -/
def list_sorted_desc (l : List PromptRecord) : List PromptRecord :=
  l.foldr insertDesc []

end PromptLib

namespace PromptLib

theorem lexLt_self : ∀ xs, lexLt xs xs = false
  | [] => rfl
  | a :: as => by
    simp only [lexLt, Nat.lt_irrefl, if_false]
    exact lexLt_self as

theorem lexLt_cons_same (c : Char) (u v : List Char) :
    lexLt (c :: u) (c :: v) = lexLt u v := by
  simp only [lexLt, Nat.lt_irrefl, if_false]

theorem lexLt_cons_lt {a b : Char} (h : a.toNat < b.toNat) (u v : List Char) :
    lexLt (a :: u) (b :: v) = true := by
  simp only [lexLt]
  rw [if_pos h]

theorem lexLt_cons_gt {a b : Char} (h : b.toNat < a.toNat) (u v : List Char) :
    lexLt (a :: u) (b :: v) = false := by
  simp only [lexLt]
  rw [if_neg (Nat.lt_asymm h), if_pos h]

theorem lexLt_append_left_lt : ∀ (xs ys u v : List Char), xs.length = ys.length →
    lexLt xs ys = true → lexLt (xs ++ u) (ys ++ v) = true := by
  intro xs
  induction xs with
  | nil =>
    intro ys u v hl h
    cases ys with
    | nil => cases h
    | cons b bs => cases hl
  | cons a as ih =>
    intro ys u v hl h
    cases ys with
    | nil => cases hl
    | cons b bs =>
      simp only [List.length_cons] at hl
      by_cases h1 : a.toNat < b.toNat
      · simp only [List.cons_append]
        exact lexLt_cons_lt h1 _ _
      · by_cases h2 : b.toNat < a.toNat
        · rw [lexLt_cons_gt h2] at h
          cases h
        · simp only [lexLt, if_neg h1, if_neg h2] at h
          simp only [List.cons_append, lexLt, if_neg h1, if_neg h2]
          exact ih bs u v (by omega) h

theorem lexLt_append_left_gt : ∀ (xs ys u v : List Char), xs.length = ys.length →
    lexLt ys xs = true → lexLt (xs ++ u) (ys ++ v) = false := by
  intro xs
  induction xs with
  | nil =>
    intro ys u v hl h
    cases ys with
    | nil => cases h
    | cons b bs => cases hl
  | cons a as ih =>
    intro ys u v hl h
    cases ys with
    | nil => cases hl
    | cons b bs =>
      simp only [List.length_cons] at hl
      by_cases h2 : b.toNat < a.toNat
      · simp only [List.cons_append]
        exact lexLt_cons_gt h2 _ _
      · by_cases h1 : a.toNat < b.toNat
        · rw [lexLt_cons_gt h1] at h
          cases h
        · simp only [lexLt, if_neg h1, if_neg h2] at h
          simp only [List.cons_append, lexLt, if_neg h1, if_neg h2]
          exact ih bs u v (by omega) h

theorem lexLt_append_same : ∀ (xs u v : List Char),
    lexLt (xs ++ u) (xs ++ v) = lexLt u v := by
  intro xs
  induction xs with
  | nil => intro u v; rfl
  | cons a as ih =>
    intro u v
    simp only [List.cons_append]
    rw [lexLt_cons_same]
    exact ih u v

theorem padNum_length : ∀ k n, (padNum k n).length = k := by
  intro k
  induction k with
  | zero => intro n; rfl
  | succ k ih =>
    intro n
    simp only [padNum, List.length_cons, ih]

theorem digitChar_toNat (d : Nat) (h : d < 10) : (digitChar d).toNat = 48 + d := by
  interval_cases d <;> decide

theorem padNum_lt : ∀ k a b, a < b → b < 10 ^ k →
    lexLt (padNum k a) (padNum k b) = true := by
  intro k
  induction k with
  | zero =>
    intro a b hab hb
    omega
  | succ k ih =>
    intro a b hab hb
    have hp : 0 < 10 ^ k := Nat.pos_pow_of_pos k (by omega)
    have hbq : b / 10 ^ k < 10 := by
      rw [Nat.div_lt_iff_lt_mul hp]
      calc b < 10 ^ (k + 1) := hb
        _ = 10 * 10 ^ k := by rw [Nat.pow_succ]; ring
    have haq : a / 10 ^ k ≤ b / 10 ^ k := Nat.div_le_div_right (Nat.le_of_lt hab)
    rcases Nat.lt_or_ge (a / 10 ^ k) (b / 10 ^ k) with hq | hq
    · simp only [padNum]
      apply lexLt_cons_lt
      rw [digitChar_toNat _ (by omega), digitChar_toNat _ hbq]
      omega
    · have hqeq : a / 10 ^ k = b / 10 ^ k := by omega
      simp only [padNum, hqeq]
      rw [lexLt_cons_same]
      apply ih
      · have e1 := Nat.div_add_mod a (10 ^ k)
        have e2 := Nat.div_add_mod b (10 ^ k)
        rw [hqeq] at e1
        omega
      · exact Nat.mod_lt b hp

theorem seg_step (k x y : Nat) (u v : List Char) (hx : x < 10 ^ k) (hy : y < 10 ^ k) :
    lexLt (padNum k x ++ u) (padNum k y ++ v) =
      if x < y then true else if y < x then false else lexLt u v := by
  rcases Nat.lt_trichotomy x y with h | h | h
  · rw [if_pos h]
    exact lexLt_append_left_lt _ _ _ _ (by rw [padNum_length, padNum_length]) (padNum_lt k x y h hy)
  · rw [h, if_neg (Nat.lt_irrefl y), if_neg (Nat.lt_irrefl y)]
    exact lexLt_append_same _ _ _
  · rw [if_neg (Nat.lt_asymm h), if_pos h]
    exact lexLt_append_left_gt _ _ _ _ (by rw [padNum_length, padNum_length]) (padNum_lt k y x h hx)

end PromptLib

namespace PromptLib

theorem frac_step (x y : Nat) (o : Int) (hx : x < 1000000) (hy : y < 1000000) :
    lexLt (fracChars x ++ offChars o) (fracChars y ++ offChars o) = decide (x < y) := by
  have hp6 : (10 : Nat) ^ 6 = 1000000 := by norm_num
  have hsign : ∃ s tl, offChars o = s :: tl ∧ s.toNat < 46 := by
    by_cases ho : (0 : Int) ≤ o
    · exact ⟨'+', _, by unfold offChars; rw [if_pos ho], by decide⟩
    · exact ⟨'-', _, by unfold offChars; rw [if_neg ho], by decide⟩
  obtain ⟨s, tl, hof, hs46⟩ := hsign
  have hdot : s.toNat < ('.').toNat := by
    have h46 : ('.').toNat = 46 := by decide
    omega
  have hf0 : fracChars 0 = [] := rfl
  by_cases hx0 : x = 0 <;> by_cases hy0 : y = 0
  · rw [hx0, hy0, lexLt_self]
    decide
  · have hfy : fracChars y = '.' :: padNum 6 y := by
      unfold fracChars
      rw [if_neg hy0]
    rw [hx0, hf0, hfy, List.nil_append, List.cons_append, hof]
    rw [lexLt_cons_lt hdot]
    exact (decide_eq_true (Nat.pos_of_ne_zero hy0)).symm
  · have hfx : fracChars x = '.' :: padNum 6 x := by
      unfold fracChars
      rw [if_neg hx0]
    rw [hy0, hf0, hfx, List.nil_append, List.cons_append, hof]
    rw [lexLt_cons_gt hdot]
    exact (decide_eq_false (Nat.not_lt_zero x)).symm
  · have hfx : fracChars x = '.' :: padNum 6 x := by
      unfold fracChars
      rw [if_neg hx0]
    have hfy : fracChars y = '.' :: padNum 6 y := by
      unfold fracChars
      rw [if_neg hy0]
    rw [hfx, hfy, List.cons_append, List.cons_append, lexLt_cons_same]
    rw [seg_step 6 x y _ _ (by omega) (by omega)]
    rw [lexLt_self]
    by_cases hxy : x < y
    · rw [if_pos hxy]
      exact (decide_eq_true hxy).symm
    · rw [if_neg hxy, ite_self]
      exact (decide_eq_false hxy).symm


theorem step_if (p q : Prop) [Decidable p] [Decidable q] (rest : Bool) (target : Prop)
    [Decidable target] (hp : p → target) (hq : q → ¬target)
    (hr : ¬p → ¬q → rest = decide target) :
    (if p then true else if q then false else rest) = decide target := by
  by_cases hp2 : p
  · rw [if_pos hp2]
    exact (decide_eq_true (hp hp2)).symm
  · rw [if_neg hp2]
    by_cases hq2 : q
    · rw [if_pos hq2]
      exact (decide_eq_false (hq hq2)).symm
    · rw [if_neg hq2]
      exact hr hp2 hq2

set_option maxHeartbeats 1000000 in
theorem iso_lexLt_eq (a b : Stamp) (hva : validStamp a) (hvb : validStamp b)
    (hoff : a.offMin = b.offMin) :
    lexLt (isoChars a) (isoChars b) = decide (chronoVal a < chronoVal b) := by
  obtain ⟨ha1, ha2, ha3, ha4, ha5, ha6, ha7, ha8, ha9⟩ := hva
  obtain ⟨hb1, hb2, hb3, hb4, hb5, hb6, hb7, hb8, hb9⟩ := hvb
  have p4 : (10 : Nat) ^ 4 = 10000 := by norm_num
  have p2 : (10 : Nat) ^ 2 = 100 := by norm_num
  simp only [isoChars, hoff]
  rw [seg_step 4 a.year b.year _ _ (by omega) (by omega)]
  rw [lexLt_cons_same]
  rw [seg_step 2 a.month b.month _ _ (by omega) (by omega)]
  rw [lexLt_cons_same]
  rw [seg_step 2 a.day b.day _ _ (by omega) (by omega)]
  rw [lexLt_cons_same]
  rw [seg_step 2 a.hour b.hour _ _ (by omega) (by omega)]
  rw [lexLt_cons_same]
  rw [seg_step 2 a.minute b.minute _ _ (by omega) (by omega)]
  rw [lexLt_cons_same]
  rw [seg_step 2 a.second b.second _ _ (by omega) (by omega)]
  rw [frac_step a.usec b.usec b.offMin (by omega) (by omega)]
  simp only [chronoVal]
  refine step_if _ _ _ _ (fun h => by omega) (fun h => by omega) (fun hy1 hy2 => ?_)
  refine step_if _ _ _ _ (fun h => by omega) (fun h => by omega) (fun hmo1 hmo2 => ?_)
  refine step_if _ _ _ _ (fun h => by omega) (fun h => by omega) (fun hd1 hd2 => ?_)
  refine step_if _ _ _ _ (fun h => by omega) (fun h => by omega) (fun hh1 hh2 => ?_)
  refine step_if _ _ _ _ (fun h => by omega) (fun h => by omega) (fun hmi1 hmi2 => ?_)
  refine step_if _ _ _ _ (fun h => by omega) (fun h => by omega) (fun hs1 hs2 => ?_)
  rw [decide_eq_decide]
  omega

end PromptLib

namespace PromptLib

/-- Claim C6: three history records produced by successive appends,
each stamped at its moment of writing with the configured timezone
(the claim takes the UTC offset as fixed and consistent across all
writes, stated here as the offset hypotheses), are returned by the
descending timestamp-string sort in exactly reverse chronological
order: lexicographic order of the rendered ISO-8601 strings agrees
with chronological order under a fixed offset, so t1 before t2 before
t3 sorts as t3, t2, t1. -/
theorem history_sort_desc_chronological (n1 n2 n3 p1 p2 p3 : String) (s1 s2 s3 : Stamp)
    (v1 : validStamp s1) (v2 : validStamp s2) (v3 : validStamp s3)
    (o12 : s1.offMin = s2.offMin) (o23 : s2.offMin = s3.offMin)
    (c12 : chronoVal s1 < chronoVal s2) (c23 : chronoVal s2 < chronoVal s3) :
    list_sorted_desc (save_prompt (save_prompt (save_prompt [] n1 s1 p1) n2 s2 p2) n3 s3 p3) =
      [⟨n3, isoChars s3, p3⟩, ⟨n2, isoChars s2, p2⟩, ⟨n1, isoChars s1, p1⟩] := by
  have o13 : s1.offMin = s3.offMin := o12.trans o23
  have c13 : chronoVal s1 < chronoVal s3 := lt_trans c12 c23
  have L32 : lexLt (isoChars s3) (isoChars s2) = false := by
    rw [iso_lexLt_eq s3 s2 v3 v2 o23.symm]
    exact decide_eq_false (by omega)
  have L31 : lexLt (isoChars s3) (isoChars s1) = false := by
    rw [iso_lexLt_eq s3 s1 v3 v1 o13.symm]
    exact decide_eq_false (by omega)
  have L21 : lexLt (isoChars s2) (isoChars s1) = false := by
    rw [iso_lexLt_eq s2 s1 v2 v1 o12.symm]
    exact decide_eq_false (by omega)
  simp [save_prompt, list_sorted_desc, insertDesc, L32, L31, L21]

/-- Concrete stamps for the C6 witness, all in the same UTC offset. -/
def wStamp1 : Stamp := ⟨2026, 10, 12, 9, 0, 0, 0, -360⟩

def wStamp2 : Stamp := ⟨2026, 10, 12, 10, 30, 0, 0, -360⟩

def wStamp3 : Stamp := ⟨2026, 11, 1, 8, 0, 0, 500, -360⟩

/-- Witness for C6 at three concrete appends. -/
theorem history_sort_desc_chronological_witness :
    validStamp wStamp1 ∧ validStamp wStamp2 ∧ validStamp wStamp3 ∧
    chronoVal wStamp1 < chronoVal wStamp2 ∧ chronoVal wStamp2 < chronoVal wStamp3 ∧
    list_sorted_desc
        (save_prompt (save_prompt (save_prompt [] "a" wStamp1 "pa") "b" wStamp2 "pb")
          "c" wStamp3 "pc") =
      [⟨"c", isoChars wStamp3, "pc"⟩, ⟨"b", isoChars wStamp2, "pb"⟩,
       ⟨"a", isoChars wStamp1, "pa"⟩] :=
  ⟨by decide, by decide, by decide, by decide, by decide,
   history_sort_desc_chronological "a" "b" "c" "pa" "pb" "pc" wStamp1 wStamp2 wStamp3
     (by decide) (by decide) (by decide) rfl rfl (by decide) (by decide)⟩

end PromptLib
